import Mathlib

/-
Verification of the petastorm thread-based worker pool
(`petastorm/workers_pool/thread_pool.py` and `petastorm/workers_pool/ventilator.py`).

The Python code is shallowly embedded as pure state-passing functions:

* FIFO queues become Lists (head of the list is the front of the queue);
  a bounded queue is a List together with a capacity field.
* A call that can raise a Python exception returns the mutated state paired
  with an `Option PyError` (object mutations performed before a raise persist,
  exactly as in Python), or an `Except PyError` result when nothing is
  mutated before the raise.
* The worker thread loop, the round-robin merger loop, and the caller's
  `get_results` loop are embedded as step functions / fuelled loops over an
  explicit `ThreadPool` state.  One step evaluates queue contents atomically,
  which is the standard single-step semantics for one loop iteration.
-/

/-- A work item stands for one `dict` of kwargs; its contents are opaque to the
pool, so we index items by a natural number tag. -/
abbrev WorkItem := Nat

/-- Elements travelling through a worker's results queue and the shared results
queue: ordinary published values, the `VentilatedItemProcessedMessage` marker
published after each processed item, or an exception object written by a
failing worker (`isinstance(result, Exception)` in `get_results`). -/
inductive QItem where
  | value (n : Nat)
  | processedMsg
  | exc (e : Nat)
  deriving DecidableEq, Repr

/-- The Python exceptions that the embedded code paths can raise.
`raisedExc e` models `raise result` where `result` is the exception object
`e` that a worker shipped through its results queue; `fuel` marks fuel
exhaustion of an embedded loop (not a Python exception). -/
inductive PyError where
  | attributeError
  | indexError
  | zeroDivisionError
  | runtimeError
  | valueError
  | emptyResultError
  | raisedExc (e : Nat)
  | fuel
  deriving DecidableEq, Repr

/-- State of a `ConcurrentVentilator` (ventilator.py).  `ventilation_thread`
records whether a `_ventilation_thread` object is currently assigned. -/
structure ConcurrentVentilator where
  items_to_ventilate : List WorkItem
  iterations_remaining : Nat
  iterations : Option Nat
  randomize_item_order : Bool
  random_seed : Option Int
  stop_requested : Bool
  ventilation_thread : Bool
  deriving DecidableEq, Repr

/-- `ConcurrentVentilator.__init__`: validates that `iterations` is a positive
integer or `None` (`None` is replaced by the finite sentinel 100000); the
items-are-dicts validation is enforced by the `WorkItem` type. -/
def ConcurrentVentilator.init (items_to_ventilate : List WorkItem)
    (iterations : Option Int) (randomize_item_order : Bool)
    (random_seed : Option Int) : Except PyError ConcurrentVentilator :=
  match iterations with
  | some k =>
    if k < 1 then .error .valueError
    else .ok { items_to_ventilate := items_to_ventilate,
               iterations_remaining := k.toNat, iterations := some k.toNat,
               randomize_item_order := randomize_item_order,
               random_seed := random_seed, stop_requested := false,
               ventilation_thread := false }
  | none => .ok { items_to_ventilate := items_to_ventilate,
                  iterations_remaining := 100000, iterations := none,
                  randomize_item_order := randomize_item_order,
                  random_seed := random_seed, stop_requested := false,
                  ventilation_thread := false }

/-- `ConcurrentVentilator.start`: launches the ventilation thread. -/
def ConcurrentVentilator.start (v : ConcurrentVentilator) : ConcurrentVentilator :=
  { v with ventilation_thread := true }

/-- `ConcurrentVentilator.completed`.  The `assert` on `_iterations_remaining`
being nonnegative holds trivially over Nat.  The source line tests
`_iterations_remaining == 0` twice; the duplicate disjunct is kept. -/
def ConcurrentVentilator.completed (v : ConcurrentVentilator) : Bool :=
  v.stop_requested || v.iterations_remaining == 0
    || v.items_to_ventilate.isEmpty || v.iterations_remaining == 0

/-- `ConcurrentVentilator.stop`: sets the stop flag and, when a ventilation
thread exists, joins it (the join blocks the caller until the thread body
finishes) and clears the thread reference. -/
def ConcurrentVentilator.stop (v : ConcurrentVentilator) : ConcurrentVentilator :=
  let v' := { v with stop_requested := true }
  if v'.ventilation_thread then { v' with ventilation_thread := false } else v'

/-- State of a `ThreadPool` (thread_pool.py).  `results_queue_cap` /
`shared_queue_cap` record the capacity each bounded queue was allocated with
by `start` (`queue.Queue(5)` per worker and `queue.Queue(25)` shared);
before `start` they are 0, meaning unallocated.  `round_robin_thread` records
whether a plain `threading.Thread` object is assigned to
`_round_robin_thread`.  `worker_status` holds one busy flag per worker
(true = busy). -/
structure ThreadPool where
  workers_count : Nat
  results_queue_size : Nat
  stop_event : Bool
  ventilator_queues : List (List WorkItem)
  results_queues : List (List QItem)
  results_queue_cap : Nat
  shared_results_queue : List QItem
  shared_queue_cap : Nat
  ventilated_items : Nat
  worker_status : List Bool
  ventilator : Option ConcurrentVentilator
  round_robin_thread : Bool
  shuffle_rows : Bool
  seed : Option Int
  deriving DecidableEq, Repr

/-- `ThreadPool.__init__`.  The queue fields are unallocated until `start`
(`_ventilator_queues = None` in the source, modelled as an empty list with
capacity 0). -/
def ThreadPool.init (workers_count : Nat) (results_queue_size : Nat)
    (shuffle_rows : Bool) (seed : Option Int) : ThreadPool where
  workers_count := workers_count
  results_queue_size := results_queue_size
  stop_event := false
  ventilator_queues := []
  results_queues := []
  results_queue_cap := 0
  shared_results_queue := []
  shared_queue_cap := 0
  ventilated_items := 0
  worker_status := List.replicate workers_count false
  ventilator := none
  round_robin_thread := false
  shuffle_rows := shuffle_rows
  seed := seed

/-- `ThreadPool.start`: raises `RuntimeError` when the stop event is already
set; otherwise allocates one unbounded input queue and one bounded results
queue (capacity 5) per worker plus the shared results queue (capacity 25),
starts the worker threads and the round-robin merger thread, and, when a
ventilator is supplied, stores and starts it (when none is supplied the
previously stored ventilator, if any, is kept). -/
def ThreadPool.start (p : ThreadPool) (ventilator : Option ConcurrentVentilator) :
    Except PyError ThreadPool :=
  if p.stop_event then .error .runtimeError
  else .ok { p with
    ventilator_queues := List.replicate p.workers_count [],
    results_queues := List.replicate p.workers_count [],
    results_queue_cap := 5,
    shared_results_queue := [],
    shared_queue_cap := 25,
    round_robin_thread := true,
    ventilator := match ventilator with
      | some v => some v.start
      | none => p.ventilator }

/-- `ThreadPool._set_worker_busy`. -/
def ThreadPool._set_worker_busy (p : ThreadPool) (worker_id : Nat) : ThreadPool :=
  { p with worker_status := p.worker_status.set worker_id true }

/-- `ThreadPool._set_worker_idle`. -/
def ThreadPool._set_worker_idle (p : ThreadPool) (worker_id : Nat) : ThreadPool :=
  { p with worker_status := p.worker_status.set worker_id false }

/-- `ThreadPool._is_worker_idle`. -/
def ThreadPool._is_worker_idle (p : ThreadPool) (worker_id : Nat) : Bool :=
  !(p.worker_status.getD worker_id false)

/-- The enumerated loop of `ThreadPool.ventilate`: item at position `i` goes
to the input queue of worker `i % workers_count` and the ventilated-items
counter is incremented once per item. -/
def ThreadPool.ventilateLoop : ThreadPool → Nat → List WorkItem → ThreadPool
  | p, _, [] => p
  | p, i, item :: rest =>
    let wid := i % p.workers_count
    let qs := p.ventilator_queues.set wid ((p.ventilator_queues.getD wid []) ++ [item])
    ThreadPool.ventilateLoop
      { p with ventilator_queues := qs, ventilated_items := p.ventilated_items + 1 }
      (i + 1) rest

/-- `ThreadPool.ventilate`.  With zero workers and a non-empty item list the
loop body evaluates `i % 0` and raises ZeroDivisionError.  After the loop, the
live diagnostic print reads the lengths of input queues 0, 1, 2 and 3, so on a
pool with fewer than four input queues the print raises IndexError — after the
items were already enqueued and the counter bumped. -/
def ThreadPool.ventilate (p : ThreadPool) (items_to_ventilate : List WorkItem) :
    ThreadPool × Option PyError :=
  if p.workers_count == 0 && !items_to_ventilate.isEmpty then
    (p, some .zeroDivisionError)
  else
    let p' := ThreadPool.ventilateLoop p 0 items_to_ventilate
    if p'.ventilator_queues.length < 4 then (p', some .indexError) else (p', none)

/-- `ThreadPool.all_workers_done`: every worker has an empty results queue, is
marked idle, and has an empty input queue. -/
def ThreadPool.all_workers_done (p : ThreadPool) : Bool :=
  (List.range p.workers_count).all fun worker_id =>
    (p.results_queues.getD worker_id []).isEmpty
      && p._is_worker_idle worker_id
      && (p.ventilator_queues.getD worker_id []).isEmpty

/-- `ThreadPool.completed`.  The leading debug print evaluates
`self._ventilator.completed()` unconditionally, so when no ventilator is
attached the call raises AttributeError (`None` has no `completed`) before the
predicate logic runs.  With a ventilator attached the function returns
whether all workers are done, the shared queue is empty, and the ventilator
reports completed (a ventilator object is always truthy, so
`not self._ventilator` is False). -/
def ThreadPool.completed (p : ThreadPool) : Except PyError Bool :=
  match p.ventilator with
  | none => .error .attributeError
  | some v =>
    .ok (p.all_workers_done && p.shared_results_queue.isEmpty && v.completed)

/-- `ThreadPool.stop`: stops the attached ventilator when there is one
(`ConcurrentVentilator.stop` also joins its thread, blocking the caller), then
calls `stop()` on the object stored in `_round_robin_thread`.  That object is
a plain `threading.Thread`, which has no `stop` method, so when a round-robin
thread is assigned the call raises AttributeError and `_stop_event.set()` is
never reached. -/
def ThreadPool.stop (p : ThreadPool) : ThreadPool × Option PyError :=
  let p' := match p.ventilator with
    | some v => { p with ventilator := some v.stop }
    | none => p
  if p'.round_robin_thread then (p', some .attributeError)
  else ({ p' with stop_event := true }, none)

/-- `ThreadPool.join`: blocks until the worker threads terminate; no pool
state is mutated.  (Worker threads only terminate once they observe the stop
event or fail.) -/
def ThreadPool.join (p : ThreadPool) : ThreadPool := p

/-- The result of one `get_results` call: a returned item, or a raised Python
exception. -/
inductive GetResult where
  | value (x : QItem)
  | raised (e : PyError)
  deriving DecidableEq, Repr

/-- `ThreadPool.get_results`, fuelled (the source loops until it can return or
raise; `fuel` bounds the number of loop iterations in the embedding).  Each
iteration: evaluate `completed()` (whose debug print can raise); when it holds
raise `EmptyResultError`; otherwise take from the shared results queue with a
timeout — on `queue.Empty`, continue; on an item, if it is an exception object
call `stop()` (whose own raise, if any, propagates), `join()`, and re-raise
the exception; otherwise return the item. -/
def ThreadPool.get_results : ThreadPool → Nat → ThreadPool × GetResult
  | p, 0 => (p, .raised .fuel)
  | p, fuel + 1 =>
    match p.completed with
    | .error e => (p, .raised e)
    | .ok true => (p, .raised .emptyResultError)
    | .ok false =>
      match p.shared_results_queue with
      | [] => ThreadPool.get_results p fuel
      | r :: rest =>
        let p' := { p with shared_results_queue := rest }
        match r with
        | .exc e =>
          match p'.stop with
          | (p'', some stopErr) => (p'', .raised stopErr)
          | (p'', none) => (p''.join, .raised (.raisedExc e))
        | x => (p', .value x)

/-- Outcome of the external `process(**kwargs)` call made by a worker: either
it returns normally or it raises exception `e`. -/
inductive ProcessOutcome where
  | ok
  | raises (e : Nat)
  deriving DecidableEq, Repr

/-- What one iteration of the `WorkerThread.run` loop did. -/
inductive WorkerEvent where
  | exitStop
  | idle
  | processed
  | terminationRequested
  | publishBlocked
  | failedExit (e : Nat)
  | failedBlocked (e : Nat)
  deriving DecidableEq, Repr

/-- One iteration of the `WorkerThread.run` loop for worker `worker_id`, with
the outcome of the external `process` call supplied as a parameter.
Break on the stop event; else take from the input queue with a short timeout
(on `queue.Empty` mark idle and continue); on an item, mark busy, run
`process`.  If it returns, publish a processed message via `_stop_aware_put`
(append when the worker's own results queue has room; on a full queue either
spin — `publishBlocked` — or, if the stop event got set, raise
`WorkerTerminationRequested`, which `run` swallows, leaving the busy flag set)
and mark idle.  If `process` raised `e`, write the exception object itself to
the worker's own results queue with a plain blocking `put` and break out of
the loop (the busy flag stays set); with the queue full that `put` blocks
forever (`failedBlocked`). -/
def ThreadPool.workerStep (p : ThreadPool) (worker_id : Nat)
    (outcome : ProcessOutcome) : ThreadPool × WorkerEvent :=
  if p.stop_event then (p, .exitStop)
  else
    match p.ventilator_queues.getD worker_id [] with
    | [] => (p._set_worker_idle worker_id, .idle)
    | _item :: restIn =>
      let p1 :=
        { p._set_worker_busy worker_id with
          ventilator_queues := p.ventilator_queues.set worker_id restIn }
      let outQ := p1.results_queues.getD worker_id []
      match outcome with
      | .ok =>
        if outQ.length < p1.results_queue_cap then
          let p2 := { p1 with
            results_queues := p1.results_queues.set worker_id (outQ ++ [QItem.processedMsg]) }
          (p2._set_worker_idle worker_id, .processed)
        else if p1.stop_event then (p1, .terminationRequested)
        else (p1, .publishBlocked)
      | .raises e =>
        if outQ.length < p1.results_queue_cap then
          ({ p1 with
             results_queues := p1.results_queues.set worker_id (outQ ++ [QItem.exc e]) },
           .failedExit e)
        else (p1, .failedBlocked e)

/-- What one iteration of the `_round_robin_consumer` loop did. -/
inductive MergerEvent where
  | exitStop
  | exitDone
  | skip
  | emptyAttempt
  | forwarded (x : QItem)
  | droppedFull (x : QItem)
  deriving DecidableEq, Repr

/-- The merger thread's state: the pool plus the `current_worker` rotation
pointer, a local of `_round_robin_consumer`. -/
structure MergerState where
  pool : ThreadPool
  current_worker : Nat
  deriving DecidableEq, Repr

/-- The non-blocking mode flag computed at the top of
`_round_robin_consumer`: `shuffle_rows and (seed is None or seed == 0)`. -/
def ThreadPool.use_non_blocking (p : ThreadPool) : Bool :=
  p.shuffle_rows && (match p.seed with | none => true | some s => s == 0)

/-- One iteration of the `_round_robin_consumer` loop.  The `while` condition
exits when the stop event is set; `all_workers_done()` breaks out of the loop
(without consulting the ventilator).  A drained current worker is skipped and
the pointer advances.  Otherwise the merger takes from the current worker's
results queue — in one atomic step both the non-blocking `get` and the
blocking `get` with a 5 second timeout behave the same: head of the queue
when non-empty, else `queue.Empty`/timeout, which advances the pointer.  A
taken item is put into the shared results queue with `block=False`: when the
shared queue is full the `queue.Full` handler just continues the loop, so the
taken item is discarded and the pointer does not advance; otherwise the item
is appended and the pointer advances. -/
def ThreadPool.mergerStep (s : MergerState) : MergerState × MergerEvent :=
  let p := s.pool
  if p.stop_event then (s, .exitStop)
  else if p.all_workers_done then (s, .exitDone)
  else
    let cw := s.current_worker
    let outQ := p.results_queues.getD cw []
    let should_skip :=
      outQ.isEmpty && p._is_worker_idle cw && (p.ventilator_queues.getD cw []).isEmpty
    if should_skip then
      ({ s with current_worker := (cw + 1) % p.workers_count }, .skip)
    else
      match outQ with
      | [] => ({ s with current_worker := (cw + 1) % p.workers_count }, .emptyAttempt)
      | item :: restOut =>
        let p1 := { p with results_queues := p.results_queues.set cw restOut }
        if p1.shared_results_queue.length < p1.shared_queue_cap then
          ({ pool := { p1 with
               shared_results_queue := p1.shared_results_queue ++ [item] },
             current_worker := (cw + 1) % p.workers_count }, .forwarded item)
        else
          ({ pool := p1, current_worker := cw }, .droppedFull item)

/-- Result of running the `ConcurrentVentilator._ventilate` thread body
against a pool: the final ventilator and pool states, the list of argument
lists passed to the pool's `ventilate` (in call order), and the exception, if
any, that escaped and killed the ventilation thread. -/
structure VentRun where
  vent : ConcurrentVentilator
  pool : ThreadPool
  calls : List (List WorkItem)
  err : Option PyError
  deriving DecidableEq, Repr

/-- The `for i in range(self._iterations_remaining)` loop of
`ConcurrentVentilator._ventilate`, with the iteration count fixed at entry
(the loop body never writes `_iterations_remaining`).  Each iteration
optionally reshuffles the item list (`rng step items` supplies the
permutation the RNG would produce on that iteration) and then calls the
pool's `ventilate` with the whole list; an exception raised inside
`ventilate` propagates out of the thread body and ends the run. -/
def ConcurrentVentilator.ventilateLoop
    (rng : Nat → List WorkItem → List WorkItem) :
    ConcurrentVentilator → ThreadPool → Nat → Nat → VentRun
  | v, p, _, 0 => { vent := v, pool := p, calls := [], err := none }
  | v, p, step, n + 1 =>
    let v1 := if v.randomize_item_order
      then { v with items_to_ventilate := rng step v.items_to_ventilate } else v
    match p.ventilate v1.items_to_ventilate with
    | (p1, some e) =>
      { vent := v1, pool := p1, calls := [v1.items_to_ventilate], err := some e }
    | (p1, none) =>
      let r := ConcurrentVentilator.ventilateLoop rng v1 p1 (step + 1) n
      { r with calls := v1.items_to_ventilate :: r.calls }

/-- `ConcurrentVentilator._ventilate` run to completion against a pool. -/
def ConcurrentVentilator.runVentilate (v : ConcurrentVentilator)
    (rng : Nat → List WorkItem → List WorkItem) (p : ThreadPool) : VentRun :=
  ConcurrentVentilator.ventilateLoop rng v p 0 v.iterations_remaining

/-- The state of a freshly started pool with `wc` workers and an optional
(already started) ventilator attached: exactly what
`ThreadPool.init wc 50 false none` followed by `start` produces. -/
def startedPool (wc : Nat) (vent : Option ConcurrentVentilator) : ThreadPool where
  workers_count := wc
  results_queue_size := 50
  stop_event := false
  ventilator_queues := List.replicate wc []
  results_queues := List.replicate wc []
  results_queue_cap := 5
  shared_results_queue := []
  shared_queue_cap := 25
  ventilated_items := 0
  worker_status := List.replicate wc false
  ventilator := vent
  round_robin_thread := true
  shuffle_rows := false
  seed := none

/-- `startedPool` really is the post-`start` state of a fresh pool. -/
theorem startedPool_reachable (wc : Nat) (v : ConcurrentVentilator) :
    (ThreadPool.init wc 50 false none).start (some v)
        = Except.ok (startedPool wc (some v.start))
    ∧ (ThreadPool.init wc 50 false none).start none
        = Except.ok (startedPool wc none) :=
  ⟨rfl, rfl⟩

/-- Ventilator state right after `ConcurrentVentilator(pool, [item 5],
iterations=3)` and `start()`. -/
def ventThree : ConcurrentVentilator where
  items_to_ventilate := [5]
  iterations_remaining := 3
  iterations := some 3
  randomize_item_order := false
  random_seed := none
  stop_requested := false
  ventilation_thread := true

/-- `ventThree` really is the post-`start` state of that constructor call. -/
theorem ventThree_reachable :
    (ConcurrentVentilator.init [5] (some 3) false none).map
      ConcurrentVentilator.start = Except.ok ventThree := rfl

/-- The `_ventilate` thread body of `ventThree` run against a freshly started
four-worker pool (four workers so that `ventilate` itself raises nothing). -/
def ventThreeRun : VentRun :=
  ventThree.runVentilate (fun _ xs => xs) (startedPool 4 none)

/-- Claim C2: a ventilator built with iterations=3 and item list containing
item 5 does submit the full item list to the pool's ventilate exactly 3
times, but the loop never decrements the iteration budget —
`_iterations_remaining` is still 3 after the run — so `completed()` stays
false instead of becoming true when the budget reaches zero. -/
theorem C2_ventilator_budget_not_decremented :
    ventThreeRun.calls = [[5], [5], [5]]
    ∧ ventThreeRun.vent.iterations_remaining = 3
    ∧ ventThreeRun.vent.completed = false
    ∧ ventThreeRun.pool.ventilated_items = 3
    ∧ ventThreeRun.err = none := by decide

/-- An incomplete, started ventilator holding one item, attached to the C1
scenario pool. -/
def ventPendingOne : ConcurrentVentilator where
  items_to_ventilate := [9]
  iterations_remaining := 1
  iterations := some 1
  randomize_item_order := false
  random_seed := none
  stop_requested := false
  ventilation_thread := true

/-- A started two-worker pool with `ventPendingOne` attached and item 9
pending on worker 0's input queue. -/
def poolOneItem : ThreadPool :=
  { startedPool 2 (some ventPendingOne) with ventilator_queues := [[9], []] }

/-- The pool after worker 0 processes item 9 and `process` raises exception 7:
the exception object sits in worker 0's own results queue. -/
def poolAfterFailure : ThreadPool :=
  (poolOneItem.workerStep 0 (ProcessOutcome.raises 7)).1

/-- The merger state after the round-robin consumer forwards the exception
object into the shared results queue. -/
def mergedAfterFailure : MergerState :=
  (ThreadPool.mergerStep { pool := poolAfterFailure, current_worker := 0 }).1

/-- Claim C1: a worker whose processing raises exception 7 writes the
exception into its results queue and terminates; the merger forwards it into
the shared queue; but `get_results`, upon dequeuing it, calls `stop()`, which
raises AttributeError (a plain `threading.Thread` has no `stop` method), so
the caller sees AttributeError instead of exception 7, `join()` is never
reached, and the stop event is still unset — the worker threads were never
told to terminate. -/
theorem C1_worker_exception_not_reraised :
    (poolOneItem.workerStep 0 (ProcessOutcome.raises 7)).2 = WorkerEvent.failedExit 7
    ∧ (ThreadPool.mergerStep { pool := poolAfterFailure, current_worker := 0 }).2
        = MergerEvent.forwarded (QItem.exc 7)
    ∧ (mergedAfterFailure.pool.get_results 2).2 = GetResult.raised PyError.attributeError
    ∧ (mergedAfterFailure.pool.get_results 2).1.stop_event = false := by decide

/-- Claim C3: on a started pool, `stop()` raises AttributeError at
`self._round_robin_thread.stop()` (plain `threading.Thread` objects have no
`stop` method), and the stop event is therefore never set. -/
theorem C3_stop_raises_attribute_error :
    (startedPool 2 none).stop = (startedPool 2 none, some PyError.attributeError)
    ∧ (startedPool 2 none).stop.1.stop_event = false := by decide

/-- Claim C4: on a started single-worker pool, `ventilate([item 3])` does
enqueue the item to worker 0 = 0 mod 1 and increments the ventilation counter
by 1, but then raises IndexError from the live diagnostic print that reads
the lengths of input queues 0 through 3. -/
theorem C4_ventilate_index_error_small_pool :
    (startedPool 1 none).ventilate [3] =
      ({ startedPool 1 none with ventilator_queues := [[3]], ventilated_items := 1 },
       some PyError.indexError) := by decide

/-- A started single-worker pool whose shared results queue is full (25
items) while worker 0's results queue holds two values. -/
def poolSharedFull : ThreadPool :=
  { startedPool 1 none with
    results_queues := [[QItem.value 1, QItem.value 2]],
    shared_results_queue := List.replicate 25 (QItem.value 0) }

/-- Claim C5: with the shared queue full, the merger takes value 1 from
worker 0's queue, its non-blocking put raises `queue.Full`, and the handler
continues the loop — the taken item is discarded: the resulting state holds
value 1 in no queue, and nothing was forwarded. -/
theorem C5_merger_drops_item_when_shared_full :
    ThreadPool.mergerStep { pool := poolSharedFull, current_worker := 0 } =
      ({ pool := { poolSharedFull with results_queues := [[QItem.value 2]] },
         current_worker := 0 }, MergerEvent.droppedFull (QItem.value 1)) := by decide

/-- Claim C6: evaluating the completion predicate on a started pool with no
ventilator attached raises AttributeError (the leading debug print calls
`self._ventilator.completed()` on `None`); with a ventilator attached the
predicate returns exactly "all workers drained, shared queue empty, and the
ventilator reports completed". -/
theorem C6_completed_predicate :
    (startedPool 2 none).completed = Except.error PyError.attributeError
    ∧ ∀ (p : ThreadPool) (v : ConcurrentVentilator),
        ({ p with ventilator := some v } : ThreadPool).completed =
          Except.ok (p.all_workers_done && p.shared_results_queue.isEmpty
            && v.completed) :=
  ⟨rfl, fun _ _ => rfl⟩

/-- An incomplete, started ventilator with five iterations left on two items. -/
def ventPendingMany : ConcurrentVentilator where
  items_to_ventilate := [1, 2]
  iterations_remaining := 5
  iterations := some 5
  randomize_item_order := false
  random_seed := none
  stop_requested := false
  ventilation_thread := true

/-- Claim C9: on a freshly started pool whose attached ventilator still has
all its items to ventilate, the merger loop body sees `all_workers_done()`
and exits — the break consults only the workers, never the ventilator, and
the stop event is unset. -/
theorem C9_merger_exits_despite_pending_ventilation :
    (ThreadPool.mergerStep
        { pool := startedPool 2 (some ventPendingMany), current_worker := 0 }).2
      = MergerEvent.exitDone
    ∧ ventPendingMany.completed = false
    ∧ (startedPool 2 (some ventPendingMany)).stop_event = false := by decide

/-- Claim C7 counterexample: calling `start()` a second time on a running
pool does not fail — the stop event is unset, so the check passes and the
pool is simply reallocated and restarted. -/
theorem C7_second_start_succeeds :
    ((ThreadPool.init 2 50 false none).start none).bind (fun q => q.start none)
      = Except.ok (startedPool 2 none) := rfl

/-- A fresh pool on which `stop()` was called before ever starting it: with
no round-robin thread assigned, `stop()` reaches `_stop_event.set()`. -/
def stoppedFreshPool : ThreadPool := ((ThreadPool.init 2 50 false none).stop).1

/-- Claim C7 amended: `start()` raises the RuntimeError usage error exactly
when the stop event is already set at the time of the call; a second
`start()` on a running pool (stop event unset) does not fail. -/
theorem C7_start_fails_iff_stop_set (p : ThreadPool)
    (v : Option ConcurrentVentilator) :
    p.start v = Except.error PyError.runtimeError ↔ p.stop_event = true := by
  unfold ThreadPool.start
  by_cases h : p.stop_event = true <;> simp [h]

/-- Witness for C7: on a pool whose stop event is set, `start()` really does
fail with the usage error. -/
theorem C7_start_fails_witness :
    stoppedFreshPool.stop_event = true
    ∧ stoppedFreshPool.start none = Except.error PyError.runtimeError :=
  ⟨by decide, (C7_start_fails_iff_stop_set stoppedFreshPool none).mpr (by decide)⟩

/-- A started single-worker pool with two values pending in worker 0's
results queue and a full shared results queue. -/
def poolTwoPendingFull : ThreadPool :=
  { startedPool 1 none with
    results_queues := [[QItem.value 3, QItem.value 4]],
    shared_results_queue := List.replicate 25 (QItem.value 0) }

/-- The merger positioned on worker 0 of `poolTwoPendingFull`. -/
def mergerFullState : MergerState :=
  { pool := poolTwoPendingFull, current_worker := 0 }

/-- Claim C8 counterexample: when the shared queue is full, a take attempt on
worker 0 ends in `queue.Full` and the pointer does not advance, so the very
next attempt is again on worker 0 — two consecutive attempts on the same
worker. -/
theorem C8_two_consecutive_attempts_same_worker :
    (ThreadPool.mergerStep mergerFullState).2 = MergerEvent.droppedFull (QItem.value 3)
    ∧ (ThreadPool.mergerStep mergerFullState).1.current_worker = 0
    ∧ mergerFullState.current_worker = 0
    ∧ (ThreadPool.mergerStep (ThreadPool.mergerStep mergerFullState).1).2
        = MergerEvent.droppedFull (QItem.value 4) := by decide

/-- Claim C8 amended: after every attempt that ends in a skip, an
empty/timeout take, or a successful forward, the rotation pointer advances to
(r+1) mod N; when the loop exits the pointer is unchanged; and after a take
whose forward to the shared queue raised `queue.Full` the pointer stays at r,
so the merger re-attempts the same worker. -/
theorem C8_pointer_advance (s : MergerState) :
    (ThreadPool.mergerStep s).1.current_worker =
      match (ThreadPool.mergerStep s).2 with
      | MergerEvent.exitStop => s.current_worker
      | MergerEvent.exitDone => s.current_worker
      | MergerEvent.droppedFull _ => s.current_worker
      | _ => (s.current_worker + 1) % s.pool.workers_count := by
  simp only [ThreadPool.mergerStep]
  repeat' split
  all_goals first | rfl | simp_all

/-- Claim C10: the `results_queue_size` constructor argument is only stored,
never read — the constructed pool differs from one built with the default 50
only in the stored field, `start()` produces the very same pool up to that
stored field, and the queues `start()` allocates always have per-worker
capacity 5 and shared capacity 25, one results queue per worker, whatever
`results_queue_size` was passed. -/
theorem C10_results_queue_size_unused (wc rqs : Nat) (sh : Bool)
    (sd : Option Int) :
    ThreadPool.init wc rqs sh sd
        = { ThreadPool.init wc 50 sh sd with results_queue_size := rqs }
    ∧ (ThreadPool.init wc rqs sh sd).start none
        = ((ThreadPool.init wc 50 sh sd).start none).map
            (fun q => { q with results_queue_size := rqs })
    ∧ ((ThreadPool.init wc rqs sh sd).start none).map
        (fun q => (q.results_queue_cap, q.shared_queue_cap)) = Except.ok (5, 25)
    ∧ ((ThreadPool.init wc rqs sh sd).start none).map
        (fun q => q.results_queues.length) = Except.ok wc := by
  refine ⟨rfl, rfl, rfl, ?_⟩
  simp [ThreadPool.init, ThreadPool.start, Except.map]
